import Mathlib

/-!
Shallow embedding of the social-network backend's domain core
(post / like / comment / report / follow services, the moderation
delete flow, and the recommendation batch job), translated from
`nexify/application/post/services.py`, `nexify/application/user/services.py`,
`nexify/application/post/tasks.py` and
`custom_admin/services/helper_services.py`.

Database rows are modelled as lists of records; each Django model carries
the `ActivityTracking` base fields we need (`is_active`, defaulting to
`true` on creation, see `utils/django/custom_models.py`).  UUID primary
keys are modelled as `Nat`; freshly generated ids (the
`build_entity_with_id` factories) are passed in as explicit parameters.
QuerySet `filter(...).first()` becomes `List.find?` with the same
predicate, `delete()` of the object so obtained becomes `List.eraseP`
with that predicate (it removes exactly the row `first()` returned), and
an UPDATE via `obj.save()` becomes a map replacing the rows with the
object's primary key.  Exceptions become an error type; Python code that
catches an exception and returns it as a value is modelled by a distinct
result constructor.  The `order_by("-created_at")` clauses only affect
presentation order of reads and are dropped; no claim depends on them.
-/

namespace Nexify

/-- `nexify/domain/user/models.py` `User` (fields the domain logic reads). -/
structure User where
  id : Nat
  is_active : Bool
  is_staff : Bool
  is_superuser : Bool
  deriving Repr, DecidableEq

/-- `nexify/domain/post/models.py` `Post`. -/
structure Post where
  id : Nat
  user : Nat
  description : Option String
  likes_count : Int
  comments_count : Int
  is_reported : Bool
  report_count : Int
  is_active : Bool
  deriving Repr, DecidableEq

/-- `nexify/domain/post/models.py` `PostComment`. -/
structure PostComment where
  id : Nat
  post : Nat
  user : Nat
  description : String
  is_active : Bool
  deriving Repr, DecidableEq

/-- `nexify/domain/post/models.py` `PostLike`. -/
structure PostLike where
  id : Nat
  post : Nat
  user : Nat
  is_active : Bool
  deriving Repr, DecidableEq

/-- `nexify/domain/post/models.py` `ReportedPost`. -/
structure ReportedPost where
  id : Nat
  post : Nat
  user : Nat
  is_active : Bool
  deriving Repr, DecidableEq

/-- `nexify/domain/user/models.py` `UserFollow` (`is_accepted` defaults
to `false`: a freshly created record is a pending request). -/
structure UserFollow where
  id : Nat
  follower : Nat
  following : Nat
  is_accepted : Bool
  is_active : Bool
  deriving Repr, DecidableEq

/-- `nexify/domain/post/models.py` `PostRecommendation`; the
`recommend_posts` many-to-many set is the list of recommended post ids. -/
structure PostRecommendation where
  id : Nat
  user : Nat
  recommend_posts : List Nat
  is_active : Bool
  deriving Repr, DecidableEq

/-- The backing store: one table per model. -/
structure State where
  users : List User
  posts : List Post
  comments : List PostComment
  likes : List PostLike
  reports : List ReportedPost
  follows : List UserFollow
  recs : List PostRecommendation
  deriving Repr, DecidableEq

/-- The named failure conditions raised by the services
(`utils/django/exceptions.py`), plus the two infrastructure failures
the embedding needs: a mail-delivery failure inside
`send_post_deletion_mail`, and the attribute dereference of `None`
performed by `list_post_recommendation` when no record exists. -/
inductive DomainError where
  | postNotFound
  | postCommentNotFound
  | unauthorizedPostAccess
  | unauthorizedPostCommentAccess
  | postAlreadyReported
  | cannotFollowSelf
  | userNotFound
  | mailDeliveryFailure
  | noneTypeAttributeFailure
  deriving Repr, DecidableEq

/-- `obj.save()` on an existing `Post`: UPDATE the rows carrying its
primary key. -/
def savePost (posts : List Post) (p : Post) : List Post :=
  posts.map (fun q => if q.id == p.id then p else q)

/-- `PostAppServices.list_posts` (services.py:54): active posts. -/
def list_posts (s : State) : List Post :=
  s.posts.filter (fun p => p.is_active)

/-- `PostAppServices.get_post_by_id` (services.py:119):
`list_posts().get(id=post_id)`, wrapping any lookup failure into
`PostNotFoundException`.  (The caller's `user` argument is unused by the
source body and omitted.) -/
def get_post_by_id (s : State) (post_id : Nat) : Except DomainError Post :=
  match (list_posts s).find? (fun p => p.id == post_id) with
  | some p => .ok p
  | none => .error .postNotFound

/-- `PostAppServices.check_post_access` (services.py:141): raises
`UnauthorizedPostAccess` unless the caller owns the post.  (The `action`
argument only feeds the message text and is omitted.) -/
def check_post_access (post_obj : Post) (user : User) : Except DomainError Unit :=
  if post_obj.user != user.id then .error .unauthorizedPostAccess else .ok ()

/-- `PostAppServices.update_post_from_dict` (services.py:160): looks the
post up among active posts (raising `PostNotFound`), checks ownership
(raising `UnauthorizedPostAccess`), then replaces the description and
saves.  The source's `if not post_obj` re-check is unreachable
(`get_post_by_id` already raised) and is not modelled. -/
def update_post_from_dict (s : State) (post_id : Nat) (user : User)
    (description : Option String) : Except DomainError Post × State :=
  match get_post_by_id s post_id with
  | .error e => (.error e, s)
  | .ok post_obj =>
    match check_post_access post_obj user with
    | .error e => (.error e, s)
    | .ok _ =>
      let post2 := { post_obj with description := description }
      (.ok post2, { s with posts := savePost s.posts post2 })

/-- `PostAppServices.post_reporting` (services.py:232): resolves the post
among active posts via `list_posts().filter(id=post_id).first()`; then
looks up an existing report by `(post, user)` — with no `is_active`
filter — raising `PostAlreadyReported` if one exists; otherwise, in one
transaction, creates the report (active by default), sets the post's
reported flag and increments its report counter. -/
def post_reporting (s : State) (post_id : Nat) (user : User) (newReportId : Nat) :
    Except DomainError ReportedPost × State :=
  match (list_posts s).find? (fun p => p.id == post_id) with
  | none => (.error .postNotFound, s)
  | some post_obj =>
    match s.reports.find? (fun r => r.post == post_id && r.user == user.id) with
    | some _ => (.error .postAlreadyReported, s)
    | none =>
      let reported_post_obj : ReportedPost :=
        { id := newReportId, post := post_obj.id, user := user.id, is_active := true }
      let post2 := { post_obj with
        is_reported := true, report_count := post_obj.report_count + 1 }
      (.ok reported_post_obj,
        { s with reports := s.reports ++ [reported_post_obj],
                 posts := savePost s.posts post2 })

/-- `PostCommentAppServices.list_comments` (services.py:309): active comments. -/
def list_comments (s : State) : List PostComment :=
  s.comments.filter (fun c => c.is_active)

/-- Result of `PostCommentAppServices.delete_comment`: the source either
raises one of the two access errors, returns `True`, or — in its
`except` clause — RETURNS the caught exception object as a value
(`return e`, services.py:423). -/
inductive DeleteCommentResult where
  | raised (e : DomainError)
  | returnedTrue
  | returnedValue (e : DomainError)
  deriving Repr, DecidableEq

/-- `PostCommentAppServices.delete_comment` (services.py:381): two-stage
check (`PostCommentNotFound` on no active comment with the id, then
`UnauthorizedPostCommentAccess` unless the caller owns it); then inside
one transaction resolves the owning post via `get_post_by_id`
(which raises `PostNotFound` when the post is inactive or absent),
decrements its comment counter, saves, and deletes the comment.  An
exception inside the transaction rolls both writes back, is caught, and
is returned as the function's value (`return e`), not re-raised. -/
def delete_comment (s : State) (post_comment_id : Nat) (user : User) :
    DeleteCommentResult × State :=
  match (list_comments s).find? (fun c => c.id == post_comment_id) with
  | none => (.raised .postCommentNotFound, s)
  | some post_comment_obj =>
    if post_comment_obj.user != user.id then
      (.raised .unauthorizedPostCommentAccess, s)
    else
      match get_post_by_id s post_comment_obj.post with
      | .error e => (.returnedValue e, s)
      | .ok post_obj =>
        let post2 := { post_obj with comments_count := post_obj.comments_count - 1 }
        (.returnedTrue,
          { s with posts := savePost s.posts post2,
                   comments := s.comments.eraseP (fun c => c.id == post_comment_obj.id) })

/-- `PostLikeAppServices.list_post_likes` (services.py:446): active likes. -/
def list_post_likes (s : State) : List PostLike :=
  s.likes.filter (fun l => l.is_active)

/-- `PostLikeAppServices.like_or_unlike_post` (services.py:460): resolves
the post among active posts (raising `PostNotFound`); looks up an
existing like by `(post, user)` — with no `is_active` filter — then in
one transaction either deletes that like and decrements the counter
(action `"unliked"`) or creates a like (active by default) and
increments the counter (action `"liked"`), saving the post. -/
def like_or_unlike_post (s : State) (user : User) (post_id : Nat) (newLikeId : Nat) :
    Except DomainError (Post × String) × State :=
  match get_post_by_id s post_id with
  | .error e => (.error e, s)
  | .ok post_obj =>
    match s.likes.find? (fun l => l.post == post_id && l.user == user.id) with
    | some _ =>
      let post2 := { post_obj with likes_count := post_obj.likes_count - 1 }
      (.ok (post2, "unliked"),
        { s with
            likes := s.likes.eraseP (fun l => l.post == post_id && l.user == user.id),
            posts := savePost s.posts post2 })
    | none =>
      let post_like_obj : PostLike :=
        { id := newLikeId, post := post_obj.id, user := user.id, is_active := true }
      let post2 := { post_obj with likes_count := post_obj.likes_count + 1 }
      (.ok (post2, "liked"),
        { s with likes := s.likes ++ [post_like_obj],
                 posts := savePost s.posts post2 })

/-- `UserAppServices.list_users` (user/services.py:54): active users. -/
def list_users (s : State) : List User :=
  s.users.filter (fun u => u.is_active)

/-- `UserFollowAppServices.follow_or_unfollow_user` (user/services.py:443):
rejects self-follow; resolves the target among active users (the source
filters `is_active=True` a second time on top of `list_users`); looks up
an existing `UserFollow` by the `(follower, following)` pair — with no
`is_active` filter — and either deletes it (message chosen by its
`is_accepted` flag) or creates a pending request (`is_accepted` defaults
to `false`). -/
def follow_or_unfollow_user (s : State) (user : User) (following_user_id : Nat)
    (newFollowId : Nat) : Except DomainError (User × String) × State :=
  if user.id == following_user_id then (.error .cannotFollowSelf, s)
  else
    match (list_users s).find? (fun u => u.id == following_user_id && u.is_active) with
    | none => (.error .userNotFound, s)
    | some following_user_obj =>
      match s.follows.find? (fun f =>
          f.follower == user.id && f.following == following_user_obj.id) with
      | some exist_user_follow_obj =>
        (.ok (following_user_obj,
          if exist_user_follow_obj.is_accepted then "You have unfollowed."
          else "Follow request deleted."),
          { s with follows := s.follows.eraseP (fun f =>
              f.follower == user.id && f.following == following_user_obj.id) })
      | none =>
        let user_follow_obj : UserFollow :=
          { id := newFollowId, follower := user.id,
            following := following_user_obj.id, is_accepted := false,
            is_active := true }
        (.ok (following_user_obj, "Follow request sent."),
          { s with follows := s.follows ++ [user_follow_obj] })

/-- `PostRecommendationAppServices.list_post_recommendation`
(services.py:535): `filter(user=user).first().recommend_posts.all()` —
when `first()` yields no record the attribute access dereferences `None`
and fails; there is no empty-collection or named-NotFound path. -/
def list_post_recommendation (s : State) (user : User) :
    Except DomainError (List Nat) :=
  match (s.recs.filter (fun r => r.user == user.id)).head? with
  | none => .error .noneTypeAttributeFailure
  | some r => .ok r.recommend_posts

/-- Cascading hard delete of a post (`post_obj.delete()` with
`on_delete=CASCADE` children and the recommendation many-to-many rows). -/
def cascadeDeletePost (s : State) (post_id : Nat) : State :=
  { s with
      posts := s.posts.filter (fun p => p.id != post_id),
      comments := s.comments.filter (fun c => c.post != post_id),
      likes := s.likes.filter (fun l => l.post != post_id),
      reports := s.reports.filter (fun r => r.post != post_id),
      recs := s.recs.map (fun r =>
        { r with recommend_posts := r.recommend_posts.filter (fun pid => pid != post_id) }) }

/-- `DeleteReportedPostServices.delete_reported_post`
(custom_admin/services/helper_services.py:60): inside ONE
`transaction.atomic()` block, resolves the post by
`filter(id=post_id, is_active=True).first()` (raising `PostNotFound`
when absent), hard-deletes it, and then calls
`send_post_deletion_mail`.  `mailOk` models whether the mail
collaborator succeeds; when it raises, the exception propagates out of
the atomic block, so the transaction — including the delete — rolls
back and the original state is kept. -/
def delete_reported_post (s : State) (post_id : Nat) (mailOk : Bool) :
    Except DomainError Unit × State :=
  match s.posts.find? (fun p => p.id == post_id && p.is_active) with
  | none => (.error .postNotFound, s)
  | some _ =>
    if mailOk then (.ok (), cascadeDeletePost s post_id)
    else (.error .mailDeliveryFailure, s)

/-- `create_post_recommendations` (tasks.py:39): the users the job
iterates over — `list_users().exclude(is_staff=True, is_superuser=True)`.
Django's `exclude` with two keyword arguments negates their CONJUNCTION:
a row is kept unless it is staff AND superuser. -/
def jobUsers (s : State) : List User :=
  (list_users s).filter (fun u => !(u.is_staff && u.is_superuser))

/-- `create_post_recommendations` (tasks.py:45): the ids of posts a user
has actively liked (`list_post_likes()` filters `is_active=True`),
as collected into `user_liked_posts[user.id]`. -/
def likedPostIds (s : State) (uid : Nat) : List Nat :=
  ((list_post_likes s).filter (fun l => l.user == uid)).map (fun l => l.post)

/-- `create_post_recommendations` (tasks.py:66): per-user recommendation
list — the freshly shuffled active-post list, minus already-liked posts,
truncated to `settings.RECOMMEND_POST_SIZE`, stored as post ids. -/
def recommendForUser (shuffled : List Post) (liked : List Nat) (size : Nat) :
    List Nat :=
  ((shuffled.filter (fun p => !(liked.contains p.id))).take size).map (fun p => p.id)

/-- The last `PostRecommendation` row for a user id, in table order: the
entry `existing_recommendations_dict[uid]` holds, since the Python dict
comprehension keeps the last row for each key. -/
def lastRecFor (recs : List PostRecommendation) (uid : Nat) :
    Option PostRecommendation :=
  ((recs.filter (fun r => r.user == uid)).reverse).head?

/-- `create_post_recommendations` (tasks.py:81): one iteration of the
update-or-create loop.  The membership decision uses the PRE-state
snapshot `preRecs` (the dict was built before any writes); an existing
record has its many-to-many set cleared and replaced
(`clear()` then `add(*...)`), an absent one is created. -/
def applyRecWrite (preRecs recs : List PostRecommendation) (u : User)
    (posts : List Nat) (newRecId : Nat) : List PostRecommendation :=
  match lastRecFor preRecs u.id with
  | some r0 => recs.map (fun q =>
      if q.id == r0.id then { q with recommend_posts := posts } else q)
  | none => recs ++ [{ id := newRecId, user := u.id, recommend_posts := posts,
                       is_active := true }]

/-- `create_post_recommendations` (tasks.py:17): the whole batch job.
`shuffles uid` is the state of the in-place-shuffled `all_posts` list
when user `uid` is processed (a permutation of the active posts);
`size` is `settings.RECOMMEND_POST_SIZE` (the settings module is not
part of the domain sources, so the configured value stays a parameter);
`newRecId uid` is the id the store assigns to a freshly created
recommendation record. -/
def create_post_recommendations (s : State) (shuffles : Nat → List Post)
    (size : Nat) (newRecId : Nat → Nat) : State :=
  { s with recs := (jobUsers s).foldl (fun recs u =>
      applyRecWrite s.recs recs u
        (recommendForUser (shuffles u.id) (likedPostIds s u.id) size)
        (newRecId u.id)) s.recs }

/-- Equality of `Except` results is decidable; needed so witnesses and
counterexamples can be checked by evaluation. -/
instance {ε α : Type} [DecidableEq ε] [DecidableEq α] :
    DecidableEq (Except ε α) := fun a b =>
  match a, b with
  | .ok x, .ok y =>
    if h : x = y then .isTrue (congrArg Except.ok h)
    else .isFalse (fun hc => h (Except.ok.inj hc))
  | .error x, .error y =>
    if h : x = y then .isTrue (congrArg Except.error h)
    else .isFalse (fun hc => h (Except.error.inj hc))
  | .ok _, .error _ => .isFalse (fun hc => Except.noConfusion hc)
  | .error _, .ok _ => .isFalse (fun hc => Except.noConfusion hc)

/-! ## Concrete example states used by counterexamples and witnesses -/

/-- An ordinary active user. -/
def exOwner : User := { id := 1, is_active := true, is_staff := false, is_superuser := false }

/-- A second ordinary active user. -/
def exOther : User := { id := 2, is_active := true, is_staff := false, is_superuser := false }

/-- A third ordinary active user. -/
def exThird : User := { id := 3, is_active := true, is_staff := false, is_superuser := false }

/-- An active post owned by user 1. -/
def exPost : Post :=
  { id := 10, user := 1, description := none, likes_count := 0, comments_count := 0,
    is_reported := false, report_count := 0, is_active := true }

/-- A minimal state: two users and one active post, no relations. -/
def exStateBase : State :=
  { users := [exOwner, exOther], posts := [exPost], comments := [], likes := [],
    reports := [], follows := [], recs := [] }

/-! ## C10 -/

/-- C10: reading a user's recommendations is only total when a
`PostRecommendation` record exists for that user: with no such record
the lookup's `first()` yields `None` and the operation fails by
dereferencing it — it neither returns an empty collection nor raises a
named NotFound condition. -/
theorem C10_list_post_recommendation_requires_record (s : State) (u : User)
    (h : ∀ r ∈ s.recs, r.user ≠ u.id) :
    list_post_recommendation s u = .error .noneTypeAttributeFailure ∧
    ∀ l : List Nat, list_post_recommendation s u ≠ .ok l := by
  have hfil : s.recs.filter (fun r => r.user == u.id) = [] := by
    rw [List.filter_eq_nil_iff]
    intro r hr
    simpa using h r hr
  have hmain : list_post_recommendation s u = .error .noneTypeAttributeFailure := by
    unfold list_post_recommendation
    rw [hfil]
    rfl
  exact ⟨hmain, fun l hl => by rw [hmain] at hl; exact Except.noConfusion hl⟩

/-- Witness for C10 at a concrete state with no recommendation records. -/
theorem C10_witness :
    list_post_recommendation exStateBase exOther = .error .noneTypeAttributeFailure ∧
    ∀ l : List Nat, list_post_recommendation exStateBase exOther ≠ .ok l :=
  C10_list_post_recommendation_requires_record exStateBase exOther (by decide)

/-! ## C7 -/

/-- C7: `update_post_from_dict` checks existence before ownership: a post
id with no active post fails with `PostNotFound` for every caller; an
existing active post not owned by the caller fails with
`UnauthorizedPostAccess`; both failures leave the state unchanged.  On
the owner's call the description is replaced and saved. -/
theorem C7_update_post_check_order (s : State) (post_id : Nat) (user : User)
    (d : Option String) :
    ((∀ p ∈ list_posts s, p.id ≠ post_id) →
       update_post_from_dict s post_id user d = (.error .postNotFound, s)) ∧
    (∀ p0, (list_posts s).find? (fun p => p.id == post_id) = some p0 →
       (p0.user ≠ user.id →
          update_post_from_dict s post_id user d = (.error .unauthorizedPostAccess, s)) ∧
       (p0.user = user.id →
          update_post_from_dict s post_id user d =
            (.ok { p0 with description := d },
             { s with posts := savePost s.posts { p0 with description := d } }))) := by
  constructor
  · intro habs
    have hfind : (list_posts s).find? (fun p => p.id == post_id) = none := by
      rw [List.find?_eq_none]
      intro p hp
      simpa using habs p hp
    unfold update_post_from_dict get_post_by_id
    rw [hfind]
  · intro p0 hfind
    constructor
    · intro hneq
      unfold update_post_from_dict get_post_by_id check_post_access
      rw [hfind]
      simp only [bne_iff_ne, ne_eq]
      rw [if_pos hneq]
    · intro heq
      unfold update_post_from_dict get_post_by_id check_post_access
      rw [hfind]
      simp only [bne_iff_ne, ne_eq]
      rw [if_neg (by simp [heq])]

/-- Witness for C7: the two failure branches and the success branch at
concrete inputs. -/
theorem C7_witness :
    update_post_from_dict exStateBase 99 exOther none = (.error .postNotFound, exStateBase) ∧
    update_post_from_dict exStateBase 10 exOther none =
      (.error .unauthorizedPostAccess, exStateBase) ∧
    update_post_from_dict exStateBase 10 exOwner (some "new") =
      (.ok { exPost with description := some "new" },
       { exStateBase with posts := savePost exStateBase.posts { exPost with description := some "new" } }) :=
  ⟨(C7_update_post_check_order exStateBase 99 exOther none).1 (by decide),
   ((C7_update_post_check_order exStateBase 10 exOther none).2 exPost (by decide)).1 (by decide),
   ((C7_update_post_check_order exStateBase 10 exOwner (some "new")).2 exPost (by decide)).2 (by decide)⟩

/-! ## C1 -/

/-- C1 counterexample: the administrator delete of a reported post and the
owner-notification email run inside ONE transaction, so when the mail
step fails the delete is rolled back: at this concrete state the call
reports the mail failure and the post is still observable afterwards —
refuting the claim that the post remains deleted when the notification
fails. -/
theorem C1_counterexample :
    (delete_reported_post exStateBase 10 false).2 = exStateBase ∧
    get_post_by_id (delete_reported_post exStateBase 10 false).2 10 = .ok exPost ∧
    (delete_reported_post exStateBase 10 false).1 = .error .mailDeliveryFailure := by
  decide

/-- C1 amended: `delete_reported_post` runs the hard delete and the
notification inside one transaction.  When the notification succeeds the
delete is durable (no post row with the id remains); when the
notification fails the whole transaction rolls back, so the post remains
exactly as before; a missing or inactive post fails with `PostNotFound`
and changes nothing. -/
theorem C1_delete_and_mail_share_transaction (s : State) (post_id : Nat) :
    ((s.posts.find? (fun p => p.id == post_id && p.is_active)).isSome →
       delete_reported_post s post_id true = (.ok (), cascadeDeletePost s post_id) ∧
       (∀ p ∈ (delete_reported_post s post_id true).2.posts, p.id ≠ post_id) ∧
       delete_reported_post s post_id false = (.error .mailDeliveryFailure, s)) ∧
    ((s.posts.find? (fun p => p.id == post_id && p.is_active)) = none →
       ∀ mailOk, delete_reported_post s post_id mailOk = (.error .postNotFound, s)) := by
  constructor
  · intro hsome
    obtain ⟨p0, hp0⟩ := Option.isSome_iff_exists.mp hsome
    refine ⟨by unfold delete_reported_post; rw [hp0]; rfl, ?_,
            by unfold delete_reported_post; rw [hp0]; rfl⟩
    intro p hp hpid
    have : delete_reported_post s post_id true = (.ok (), cascadeDeletePost s post_id) := by
      unfold delete_reported_post; rw [hp0]; rfl
    rw [this] at hp
    unfold cascadeDeletePost at hp
    simp only [List.mem_filter] at hp
    have := hp.2
    simp [hpid] at this
  · intro hnone mailOk
    unfold delete_reported_post
    rw [hnone]

/-- Witness for C1 amended: the three branches at concrete inputs. -/
theorem C1_witness :
    (delete_reported_post exStateBase 10 true = (.ok (), cascadeDeletePost exStateBase 10) ∧
     (∀ p ∈ (delete_reported_post exStateBase 10 true).2.posts, p.id ≠ 10) ∧
     delete_reported_post exStateBase 10 false = (.error .mailDeliveryFailure, exStateBase)) ∧
    delete_reported_post exStateBase 99 true = (.error .postNotFound, exStateBase) :=
  ⟨(C1_delete_and_mail_share_transaction exStateBase 10).1 (by decide),
   (C1_delete_and_mail_share_transaction exStateBase 99).2 (by decide) true⟩

/-! ## C2 -/

/-- An active staff (but not superuser) user. -/
def staffOnlyUser : User := { id := 4, is_active := true, is_staff := true, is_superuser := false }

/-- A state containing only the staff-only user. -/
def exStateStaff : State :=
  { users := [staffOnlyUser], posts := [], comments := [], likes := [],
    reports := [], follows := [], recs := [] }

/-- C2: the batch job's user query is
`list_users().exclude(is_staff=True, is_superuser=True)`, which only
skips users that are staff AND superuser; the task's own docstring says
it fetches "non-staff and non-superuser users".  At this concrete state
an active staff-only (non-superuser) user is selected by the job and a
recommendation record is written for them. -/
theorem C2_staff_only_user_processed :
    staffOnlyUser ∈ jobUsers exStateStaff ∧
    staffOnlyUser.is_staff = true ∧ staffOnlyUser.is_superuser = false ∧
    (create_post_recommendations exStateStaff (fun _ => []) 5 (fun _ => 100)).recs =
      [{ id := 100, user := 4, recommend_posts := [], is_active := true }] := by
  decide

/-! ## C6 -/

/-- An inactive post (id 20) owned by user 1. -/
def exPostInactive : Post :=
  { id := 20, user := 1, description := none, likes_count := 0, comments_count := 1,
    is_reported := false, report_count := 0, is_active := false }

/-- An active comment (id 5) by user 1 whose owning post is the inactive post 20. -/
def exCommentOn20 : PostComment :=
  { id := 5, post := 20, user := 1, description := "c", is_active := true }

/-- A state where the comment's owning post is inactive. -/
def exStateC6 : State :=
  { users := [exOwner], posts := [exPostInactive], comments := [exCommentOn20],
    likes := [], reports := [], follows := [], recs := [] }

/-- C6 counterexample: when the two-stage check passes but the owning
post is inactive, the lookup inside the transaction raises, the `except`
clause catches it, and `delete_comment` RETURNS the exception as a
normal value (`return e`) instead of raising — refuting the claim that
a failure within the transaction propagates as a raised failure
condition.  (The writes are indeed aborted: the state is unchanged.) -/
theorem C6_counterexample :
    delete_comment exStateC6 5 exOwner = (.returnedValue .postNotFound, exStateC6) ∧
    ∀ e, (delete_comment exStateC6 5 exOwner).1 ≠ .raised e := by
  refine ⟨by decide, ?_⟩
  intro e h
  have hres : (delete_comment exStateC6 5 exOwner).1 = .returnedValue .postNotFound := by
    decide
  rw [hres] at h
  exact DeleteCommentResult.noConfusion h

/-- C6 amended: `delete_comment` performs the two-stage check (raising
`PostCommentNotFound` when no active comment with the id exists, then
`UnauthorizedPostCommentAccess` when the caller is not the owner); on
the owner's successful call it decrements the owning post's comment
counter and deletes the comment in one transaction; a failure inside
that transaction (the owning post absent or inactive) aborts with no
partial state, but the caught exception is RETURNED as the function's
value rather than raised. -/
theorem C6_delete_comment_behavior (s : State) (cid : Nat) (user : User) :
    ((∀ c ∈ list_comments s, c.id ≠ cid) →
       delete_comment s cid user = (.raised .postCommentNotFound, s)) ∧
    (∀ c0, (list_comments s).find? (fun c => c.id == cid) = some c0 →
       (c0.user ≠ user.id →
          delete_comment s cid user = (.raised .unauthorizedPostCommentAccess, s)) ∧
       (c0.user = user.id →
          (get_post_by_id s c0.post = .error .postNotFound →
             delete_comment s cid user = (.returnedValue .postNotFound, s)) ∧
          (∀ p0, get_post_by_id s c0.post = .ok p0 →
             delete_comment s cid user =
               (.returnedTrue,
                { s with
                    posts := savePost s.posts { p0 with comments_count := p0.comments_count - 1 },
                    comments := s.comments.eraseP (fun c => c.id == c0.id) })))) := by
  constructor
  · intro habs
    have hfind : (list_comments s).find? (fun c => c.id == cid) = none := by
      rw [List.find?_eq_none]
      intro c hc
      simpa using habs c hc
    unfold delete_comment
    rw [hfind]
  · intro c0 hfind
    constructor
    · intro hneq
      unfold delete_comment
      rw [hfind]
      simp only [bne_iff_ne, ne_eq]
      rw [if_pos hneq]
    · intro heq
      constructor
      · intro herr
        unfold delete_comment
        rw [hfind]
        simp only [bne_iff_ne, ne_eq]
        rw [if_neg (by simp [heq]), herr]
      · intro p0 hok
        unfold delete_comment
        rw [hfind]
        simp only [bne_iff_ne, ne_eq]
        rw [if_neg (by simp [heq]), hok]

/-- An active comment (id 6) by user 1 on the active post 10. -/
def exCommentOn10 : PostComment :=
  { id := 6, post := 10, user := 1, description := "c", is_active := true }

/-- `exStateBase` plus that comment. -/
def exStateWithComment : State := { exStateBase with comments := [exCommentOn10] }

/-- Witness for C6 amended: all four branches at concrete inputs. -/
theorem C6_witness :
    delete_comment exStateWithComment 99 exOwner =
      (.raised .postCommentNotFound, exStateWithComment) ∧
    delete_comment exStateWithComment 6 exOther =
      (.raised .unauthorizedPostCommentAccess, exStateWithComment) ∧
    delete_comment exStateC6 5 exOwner = (.returnedValue .postNotFound, exStateC6) ∧
    delete_comment exStateWithComment 6 exOwner =
      (.returnedTrue,
       { exStateWithComment with
           posts := savePost exStateWithComment.posts
             { exPost with comments_count := exPost.comments_count - 1 },
           comments := exStateWithComment.comments.eraseP
             (fun c => c.id == exCommentOn10.id) }) :=
  ⟨(C6_delete_comment_behavior exStateWithComment 99 exOwner).1 (by decide),
   ((C6_delete_comment_behavior exStateWithComment 6 exOther).2 exCommentOn10 (by decide)).1
     (by decide),
   (((C6_delete_comment_behavior exStateC6 5 exOwner).2 exCommentOn20 (by decide)).2
     (by decide)).1 (by decide),
   (((C6_delete_comment_behavior exStateWithComment 6 exOwner).2 exCommentOn10 (by decide)).2
     (by decide)).2 exPost (by decide)⟩

/-! ## C9 -/

/-- An INACTIVE like row by user 2 on post 10. -/
def inactiveLike : PostLike := { id := 7, post := 10, user := 2, is_active := false }

/-- `exStateBase` plus the inactive like row. -/
def exStateInactiveLike : State := { exStateBase with likes := [inactiveLike] }

/-- C9 counterexample: the like-toggle existence check does NOT treat an
inactive row like an absent one — with an inactive like row present the
toggle takes the unlike branch (even driving the counter to -1), while
with no row at all it takes the like branch. -/
theorem C9_counterexample :
    (like_or_unlike_post exStateInactiveLike exOther 10 99).1 =
      .ok ({ exPost with likes_count := -1 }, "unliked") ∧
    (like_or_unlike_post exStateBase exOther 10 99).1 =
      .ok ({ exPost with likes_count := 1 }, "liked") ∧
    (like_or_unlike_post exStateInactiveLike exOther 10 99).1 ≠
      (like_or_unlike_post exStateBase exOther 10 99).1 := by
  decide

/-- C9 amended: the existence checks gating the like toggle, the
duplicate-report conflict and the follow toggle do NOT filter on
`is_active`: any existing row — active or inactive — is treated as
present, so a matching like row (of either activity) triggers the
unlike branch, a matching report row triggers `PostAlreadyReported`,
and a matching follow row triggers the delete branch. -/
theorem C9_existence_checks_ignore_is_active (s : State) (user : User) :
    (∀ pid nid (l : PostLike), l ∈ s.likes → l.post = pid → l.user = user.id →
       ∀ p0, (list_posts s).find? (fun p => p.id == pid) = some p0 →
         like_or_unlike_post s user pid nid =
           (.ok ({ p0 with likes_count := p0.likes_count - 1 }, "unliked"),
            { s with
                likes := s.likes.eraseP (fun x => x.post == pid && x.user == user.id),
                posts := savePost s.posts { p0 with likes_count := p0.likes_count - 1 } })) ∧
    (∀ pid nid (r : ReportedPost), r ∈ s.reports → r.post = pid → r.user = user.id →
       (∀ p0, (list_posts s).find? (fun p => p.id == pid) = some p0 →
         post_reporting s pid user nid = (.error .postAlreadyReported, s))) ∧
    (∀ fid nid (f : UserFollow), f ∈ s.follows → f.follower = user.id → f.following = fid →
       user.id ≠ fid →
       ∀ fu, (list_users s).find? (fun u => u.id == fid && u.is_active) = some fu →
         (follow_or_unfollow_user s user fid nid).2 =
           { s with follows := (s.follows.eraseP
               (fun g => g.follower == user.id && g.following == fu.id)) } ∧
         ∃ msg, (follow_or_unfollow_user s user fid nid).1 = .ok (fu, msg) ∧
           (msg = "You have unfollowed." ∨ msg = "Follow request deleted.")) := by
  refine ⟨?_, ?_, ?_⟩
  · intro pid nid l hl hlp hlu p0 hfind
    obtain ⟨y, hy⟩ : ∃ y, s.likes.find? (fun x => x.post == pid && x.user == user.id) = some y := by
      rw [← Option.isSome_iff_exists, List.find?_isSome]
      exact ⟨l, hl, by simp [hlp, hlu]⟩
    unfold like_or_unlike_post get_post_by_id
    rw [hfind, hy]
  · intro pid nid r hr hrp hru p0 hfind
    obtain ⟨y, hy⟩ : ∃ y, s.reports.find? (fun x => x.post == pid && x.user == user.id) = some y := by
      rw [← Option.isSome_iff_exists, List.find?_isSome]
      exact ⟨r, hr, by simp [hrp, hru]⟩
    unfold post_reporting
    rw [hfind, hy]
  · intro fid nid f hf hff hfg hne fu hfu
    have hfuid : fu.id = fid := by
      have := List.find?_some hfu
      simp at this
      exact this.1
    obtain ⟨y, hy⟩ : ∃ y, s.follows.find? (fun g => g.follower == user.id && g.following == fu.id) = some y := by
      rw [← Option.isSome_iff_exists, List.find?_isSome]
      exact ⟨f, hf, by simp [hff, hfg, hfuid]⟩
    unfold follow_or_unfollow_user
    rw [if_neg (by simpa using hne), hfu]
    dsimp only
    rw [hy]
    refine ⟨rfl, _, rfl, ?_⟩
    by_cases hacc : y.is_accepted = true <;> simp [hacc]

/-- An inactive report row by user 2 on post 10, and an inactive pending
follow row from user 2 towards user 1, for the C9 witness. -/
def inactiveReport : ReportedPost := { id := 8, post := 10, user := 2, is_active := false }

/-- Inactive follow row from user 2 towards user 1. -/
def inactiveFollow : UserFollow :=
  { id := 9, follower := 2, following := 1, is_accepted := false, is_active := false }

/-- State with the three inactive relation rows. -/
def exStateInactiveRows : State :=
  { exStateBase with likes := [inactiveLike], reports := [inactiveReport],
                     follows := [inactiveFollow] }

/-- Witness for C9 amended at the concrete state with inactive rows. -/
theorem C9_witness :
    like_or_unlike_post exStateInactiveRows exOther 10 99 =
      (.ok ({ exPost with likes_count := exPost.likes_count - 1 }, "unliked"),
       { exStateInactiveRows with
           likes := exStateInactiveRows.likes.eraseP
             (fun x => x.post == 10 && x.user == exOther.id),
           posts := savePost exStateInactiveRows.posts
             { exPost with likes_count := exPost.likes_count - 1 } }) ∧
    post_reporting exStateInactiveRows 10 exOther 99 =
      (.error .postAlreadyReported, exStateInactiveRows) ∧
    ((follow_or_unfollow_user exStateInactiveRows exOther 1 99).2 =
       { exStateInactiveRows with
           follows := exStateInactiveRows.follows.eraseP
             (fun g => g.follower == exOther.id && g.following == exOwner.id) } ∧
     ∃ msg, (follow_or_unfollow_user exStateInactiveRows exOther 1 99).1 = .ok (exOwner, msg) ∧
       (msg = "You have unfollowed." ∨ msg = "Follow request deleted.")) :=
  ⟨(C9_existence_checks_ignore_is_active exStateInactiveRows exOther).1
     10 99 inactiveLike (by decide) (by decide) (by decide) exPost (by decide),
   (C9_existence_checks_ignore_is_active exStateInactiveRows exOther).2.1
     10 99 inactiveReport (by decide) (by decide) (by decide) exPost (by decide),
   (C9_existence_checks_ignore_is_active exStateInactiveRows exOther).2.2
     1 99 inactiveFollow (by decide) (by decide) (by decide) (by decide) exOwner (by decide)⟩

/-! ## C5 -/

/-- C5: on an active post with no prior report by the caller, the first
`post_reporting` call creates the report, sets the reported flag and
increments the report counter by one; a second call by the same user
fails with `PostAlreadyReported` and leaves the state unchanged, so the
counter is incremented exactly once across the two calls. -/
theorem C5_report_conflict_increments_once (s : State) (pid : Nat) (U : User)
    (id1 id2 : Nat) (p0 : Post)
    (hfind : (list_posts s).find? (fun p => p.id == pid) = some p0)
    (hnorep : ∀ r ∈ s.reports, ¬(r.post = pid ∧ r.user = U.id)) :
    post_reporting s pid U id1 =
      (.ok { id := id1, post := p0.id, user := U.id, is_active := true },
       { s with
           reports := s.reports ++ [{ id := id1, post := p0.id, user := U.id, is_active := true }],
           posts := savePost s.posts
             { p0 with is_reported := true, report_count := p0.report_count + 1 } }) ∧
    (∀ p ∈ (post_reporting s pid U id1).2.posts, p.id = pid →
       p.is_reported = true ∧ p.report_count = p0.report_count + 1) ∧
    post_reporting (post_reporting s pid U id1).2 pid U id2 =
      (.error .postAlreadyReported, (post_reporting s pid U id1).2) := by
  have hp0id : p0.id = pid := by simpa using List.find?_some hfind
  have hp0mem : p0 ∈ list_posts s := List.mem_of_find?_eq_some hfind
  have hp0act : p0.is_active = true := (List.mem_filter.mp hp0mem).2
  have hnone : s.reports.find? (fun r => r.post == pid && r.user == U.id) = none := by
    rw [List.find?_eq_none]
    intro r hr hc
    simp only [Bool.and_eq_true, beq_iff_eq] at hc
    exact hnorep r hr ⟨hc.1, hc.2⟩
  have hstep1 : post_reporting s pid U id1 =
      (.ok { id := id1, post := p0.id, user := U.id, is_active := true },
       { s with
           reports := s.reports ++ [{ id := id1, post := p0.id, user := U.id, is_active := true }],
           posts := savePost s.posts
             { p0 with is_reported := true, report_count := p0.report_count + 1 } }) := by
    unfold post_reporting
    rw [hfind]
    dsimp only
    rw [hnone]
  refine ⟨hstep1, ?_, ?_⟩
  · intro p hp hpid
    rw [hstep1] at hp
    simp only [savePost, List.mem_map] at hp
    obtain ⟨q, _, hq⟩ := hp
    by_cases hqid : (q.id == p0.id) = true
    · rw [if_pos hqid] at hq
      rw [← hq]
      exact ⟨rfl, rfl⟩
    · rw [if_neg hqid] at hq
      rw [← hq] at hpid
      rw [hpid, ← hp0id] at hqid
      simp at hqid
  · set t1 : State := (post_reporting s pid U id1).2 with ht1def
    have ht1 : t1 =
        { s with
            reports := s.reports ++ [{ id := id1, post := p0.id, user := U.id, is_active := true }],
            posts := savePost s.posts
              { p0 with is_reported := true, report_count := p0.report_count + 1 } } := by
      rw [ht1def, hstep1]
    have hfind2 : ∃ y, (list_posts t1).find? (fun p => p.id == pid) = some y := by
      rw [← Option.isSome_iff_exists, List.find?_isSome]
      refine ⟨{ p0 with is_reported := true, report_count := p0.report_count + 1 }, ?_,
        by simp [hp0id]⟩
      rw [ht1]
      simp only [list_posts, List.mem_filter, savePost, List.mem_map]
      refine ⟨⟨p0, (List.mem_filter.mp hp0mem).1, by rw [if_pos (by simp)]⟩, hp0act⟩
    obtain ⟨y, hy⟩ := hfind2
    have hrepfind : t1.reports.find? (fun r => r.post == pid && r.user == U.id) =
        some { id := id1, post := p0.id, user := U.id, is_active := true } := by
      rw [ht1]
      dsimp only
      rw [List.find?_append, hnone]
      simp [hp0id]
    unfold post_reporting
    rw [hy]
    dsimp only
    rw [hrepfind]

/-- Witness for C5 at the concrete base state. -/
theorem C5_witness :
    post_reporting exStateBase 10 exOther 40 =
      (.ok { id := 40, post := exPost.id, user := exOther.id, is_active := true },
       { exStateBase with
           reports := exStateBase.reports ++
             [{ id := 40, post := exPost.id, user := exOther.id, is_active := true }],
           posts := savePost exStateBase.posts
             { exPost with is_reported := true, report_count := exPost.report_count + 1 } }) ∧
    (∀ p ∈ (post_reporting exStateBase 10 exOther 40).2.posts, p.id = 10 →
       p.is_reported = true ∧ p.report_count = exPost.report_count + 1) ∧
    post_reporting (post_reporting exStateBase 10 exOther 40).2 10 exOther 41 =
      (.error .postAlreadyReported, (post_reporting exStateBase 10 exOther 40).2) :=
  C5_report_conflict_increments_once exStateBase 10 exOther 40 41 exPost
    (by decide) (by decide)

/-! ## C8 -/

/-- C8: the follow/unfollow toggle is the claimed three-state machine on
an ordered pair with a distinct, active target: with no `UserFollow`
record the call creates a pending (`is_accepted = false`) record with
the "Follow request sent." label; with a record present it deletes it,
labelled "You have unfollowed." when it was accepted and
"Follow request deleted." when pending; and from the absent state two
consecutive toggles return to the absent state (the second labelled
"Follow request deleted.") while a third re-creates a pending request. -/
theorem C8_follow_toggle_state_machine (s : State) (u : User) (fid : Nat) (fu : User)
    (hne : u.id ≠ fid)
    (hfu : (list_users s).find? (fun x => x.id == fid && x.is_active) = some fu) :
    ((∀ f ∈ s.follows, ¬(f.follower = u.id ∧ f.following = fu.id)) →
       ∀ nid, follow_or_unfollow_user s u fid nid =
         (.ok (fu, "Follow request sent."),
          { s with follows := s.follows ++
              [{ id := nid, follower := u.id, following := fu.id,
                 is_accepted := false, is_active := true }] })) ∧
    (∀ f0, s.follows.find? (fun f => f.follower == u.id && f.following == fu.id) = some f0 →
       ∀ nid, follow_or_unfollow_user s u fid nid =
         (.ok (fu, if f0.is_accepted then "You have unfollowed."
                   else "Follow request deleted."),
          { s with follows := (s.follows.eraseP
              (fun f => f.follower == u.id && f.following == fu.id)) })) ∧
    ((∀ f ∈ s.follows, ¬(f.follower = u.id ∧ f.following = fu.id)) →
       ∀ n1 n2 n3,
         (follow_or_unfollow_user (follow_or_unfollow_user s u fid n1).2 u fid n2).1 =
           .ok (fu, "Follow request deleted.") ∧
         (follow_or_unfollow_user (follow_or_unfollow_user s u fid n1).2 u fid n2).2 = s ∧
         follow_or_unfollow_user
             (follow_or_unfollow_user (follow_or_unfollow_user s u fid n1).2 u fid n2).2
             u fid n3 =
           (.ok (fu, "Follow request sent."),
            { s with follows := s.follows ++
                [{ id := n3, follower := u.id, following := fu.id,
                   is_accepted := false, is_active := true }] })) := by
  have habsent_step : ∀ (t : State), t.users = s.users →
      (∀ f ∈ t.follows, ¬(f.follower = u.id ∧ f.following = fu.id)) →
      ∀ nid, follow_or_unfollow_user t u fid nid =
        (.ok (fu, "Follow request sent."),
         { t with follows := t.follows ++
             [{ id := nid, follower := u.id, following := fu.id,
                is_accepted := false, is_active := true }] }) := by
    intro t ht habs nid
    have hnone : t.follows.find? (fun f => f.follower == u.id && f.following == fu.id) = none := by
      rw [List.find?_eq_none]
      intro f hf hc
      simp only [Bool.and_eq_true, beq_iff_eq] at hc
      exact habs f hf ⟨hc.1, hc.2⟩
    have hfu' : (list_users t).find? (fun x => x.id == fid && x.is_active) = some fu := by
      unfold list_users
      rw [ht]
      exact hfu
    unfold follow_or_unfollow_user
    rw [if_neg (by simpa using hne), hfu']
    dsimp only
    rw [hnone]
  have hpresent_step : ∀ (t : State), t.users = s.users →
      ∀ f0, t.follows.find? (fun f => f.follower == u.id && f.following == fu.id) = some f0 →
      ∀ nid, follow_or_unfollow_user t u fid nid =
        (.ok (fu, if f0.is_accepted then "You have unfollowed."
                  else "Follow request deleted."),
         { t with follows := (t.follows.eraseP
             (fun f => f.follower == u.id && f.following == fu.id)) }) := by
    intro t ht f0 hsome nid
    have hfu' : (list_users t).find? (fun x => x.id == fid && x.is_active) = some fu := by
      unfold list_users
      rw [ht]
      exact hfu
    unfold follow_or_unfollow_user
    rw [if_neg (by simpa using hne), hfu']
    dsimp only
    rw [hsome]
  refine ⟨fun habs nid => habsent_step s rfl habs nid,
          fun f0 hsome nid => hpresent_step s rfl f0 hsome nid, ?_⟩
  intro habs n1 n2 n3
  have hnone : s.follows.find? (fun f => f.follower == u.id && f.following == fu.id) = none := by
    rw [List.find?_eq_none]
    intro f hf hc
    simp only [Bool.and_eq_true, beq_iff_eq] at hc
    exact habs f hf ⟨hc.1, hc.2⟩
  have h1 := habsent_step s rfl habs n1
  have ht1 : (follow_or_unfollow_user s u fid n1).2 =
      { s with follows := s.follows ++
          [{ id := n1, follower := u.id, following := fu.id,
             is_accepted := false, is_active := true }] } := by
    rw [h1]
  rw [ht1]
  have hfind2 : (s.follows ++
      [({ id := n1, follower := u.id, following := fu.id,
          is_accepted := false, is_active := true } : UserFollow)]).find?
      (fun f => f.follower == u.id && f.following == fu.id) =
      some { id := n1, follower := u.id, following := fu.id,
             is_accepted := false, is_active := true } := by
    rw [List.find?_append, hnone]
    simp
  have h2 := hpresent_step
    ({ s with follows := s.follows ++
        [{ id := n1, follower := u.id, following := fu.id,
           is_accepted := false, is_active := true }] }) rfl
    { id := n1, follower := u.id, following := fu.id,
      is_accepted := false, is_active := true } hfind2 n2
  have herase : ((s.follows ++
      [({ id := n1, follower := u.id, following := fu.id,
          is_accepted := false, is_active := true } : UserFollow)]).eraseP
      (fun f => f.follower == u.id && f.following == fu.id)) = s.follows := by
    rw [List.eraseP_append_right]
    · simp
    · intro b hb
      have := habs b hb
      simp only [Bool.and_eq_true, beq_iff_eq]
      intro hc
      exact this ⟨hc.1, hc.2⟩
  have ht2 : (follow_or_unfollow_user
      ({ s with follows := s.follows ++
          [{ id := n1, follower := u.id, following := fu.id,
             is_accepted := false, is_active := true }] }) u fid n2).2 = s := by
    rw [h2]
    dsimp only
    rw [herase]
  refine ⟨?_, ht2, ?_⟩
  · rw [h2]
    rfl
  · rw [ht2]
    exact habsent_step s rfl habs n3

/-- Witness for C8 at the concrete base state (user 2 toggling a follow
of user 1, no prior record). -/
theorem C8_witness :
    (follow_or_unfollow_user exStateBase exOther 1 51 =
       (.ok (exOwner, "Follow request sent."),
        { exStateBase with follows := exStateBase.follows ++
            [{ id := 51, follower := exOther.id, following := exOwner.id,
               is_accepted := false, is_active := true }] })) ∧
    ((follow_or_unfollow_user (follow_or_unfollow_user exStateBase exOther 1 51).2
        exOther 1 52).1 = .ok (exOwner, "Follow request deleted.") ∧
     (follow_or_unfollow_user (follow_or_unfollow_user exStateBase exOther 1 51).2
        exOther 1 52).2 = exStateBase ∧
     follow_or_unfollow_user
         (follow_or_unfollow_user (follow_or_unfollow_user exStateBase exOther 1 51).2
            exOther 1 52).2 exOther 1 53 =
       (.ok (exOwner, "Follow request sent."),
        { exStateBase with follows := exStateBase.follows ++
            [{ id := 53, follower := exOther.id, following := exOwner.id,
               is_accepted := false, is_active := true }] })) :=
  ⟨(C8_follow_toggle_state_machine exStateBase exOther 1 exOwner (by decide)
      (by decide)).1 (by decide) 51,
   (C8_follow_toggle_state_machine exStateBase exOther 1 exOwner (by decide)
      (by decide)).2.2 (by decide) 51 52 53⟩

/-! ## C4 -/

/-- Erasing (at most) one element that cannot satisfy `q` leaves the
`q`-filter unchanged. -/
theorem filter_eraseP_of_disjoint {α : Type} (p q : α → Bool)
    (h : ∀ a, p a = true → q a = false) :
    ∀ l : List α, (l.eraseP p).filter q = l.filter q := by
  intro l
  induction l with
  | nil => rfl
  | cons x xs ih =>
    by_cases hx : p x = true
    · simp only [List.eraseP_cons, hx, cond_true, List.filter_cons, h x hx]
      simp
    · have hx2 : p x = false := by simpa using hx
      simp only [List.eraseP_cons, hx2, cond_false, List.filter_cons, ih]

/-- Erasing an element that satisfies `p` (and hence `q`) drops the
`q`-filter's length by exactly one. -/
theorem length_filter_eraseP_succ {α : Type} (p q : α → Bool)
    (himp : ∀ a, p a = true → q a = true) :
    ∀ l : List α, (∃ a ∈ l, p a = true) →
      ((l.eraseP p).filter q).length + 1 = (l.filter q).length := by
  intro l
  induction l with
  | nil =>
    rintro ⟨a, ha, -⟩
    exact absurd ha (List.not_mem_nil a)
  | cons x xs ih =>
    rintro ⟨a, ha, hpa⟩
    by_cases hx : p x = true
    · simp only [List.eraseP_cons, hx, cond_true, List.filter_cons, himp x hx,
        if_true, List.length_cons]
    · have hax : a ∈ xs := by
        rcases List.mem_cons.mp ha with h1 | h1
        · subst h1; exact absurd hpa hx
        · exact h1
      have hrec := ih ⟨a, hax, hpa⟩
      have hx2 : p x = false := by simpa using hx
      simp only [List.eraseP_cons, hx2, cond_false, List.filter_cons]
      by_cases hqx : q x = true
      · simp only [hqx, if_true, List.length_cons]
        omega
      · simp only [hqx, if_false, Bool.false_eq_true]
        exact hrec

/-- Counter consistency for the post id `P`: every post row carrying id
`P` has `likes_count` equal to the number of `PostLike` rows referencing
`P` — active or not, exactly the row set the toggle's lookup, delete and
counter arithmetic operate on. -/
def LikesInv (s : State) (P : Nat) : Prop :=
  ∀ p ∈ s.posts, p.id = P →
    p.likes_count = ((s.likes.filter (fun l => l.post == P)).length : Int)

instance (s : State) (P : Nat) : Decidable (LikesInv s P) := by
  unfold LikesInv
  exact List.decidableBAll _ s.posts

/-- A serial sequence of like/unlike toggles: each entry carries the
caller, the target post id, and the fresh id the factory would assign to
a created like row. -/
def applyToggles (s : State) (ops : List (User × Nat × Nat)) : State :=
  ops.foldl (fun t op => (like_or_unlike_post t op.1 op.2.1 op.2.2).2) s

/-- One toggle (by any caller, on any post id) preserves the counter
consistency of `P`. -/
theorem likesInv_step (t : State) (P : Nat) (u : User) (pid nid : Nat)
    (hinv : LikesInv t P) : LikesInv (like_or_unlike_post t u pid nid).2 P := by
  unfold like_or_unlike_post get_post_by_id
  cases hfind : (list_posts t).find? (fun p => p.id == pid) with
  | none => exact hinv
  | some post_obj =>
    have hpostmem : post_obj ∈ t.posts :=
      (List.mem_filter.mp (List.mem_of_find?_eq_some hfind)).1
    have hpostid : post_obj.id = pid := by simpa using List.find?_some hfind
    cases hlk : t.likes.find? (fun l => l.post == pid && l.user == u.id) with
    | some y =>
      dsimp only
      intro p hp hpP
      simp only [savePost, List.mem_map] at hp
      obtain ⟨q, hq, hqe⟩ := hp
      by_cases hqid : (q.id == post_obj.id) = true
      · rw [if_pos hqid] at hqe
        rw [← hqe] at hpP ⊢
        have hPpid : pid = P := hpostid.symm.trans hpP
        have hy : ∃ a ∈ t.likes, (a.post == pid && a.user == u.id) = true := by
          have h1 := List.find?_some hlk
          have h2 := List.mem_of_find?_eq_some hlk
          exact ⟨y, h2, h1⟩
        have hlen := length_filter_eraseP_succ
          (fun l => l.post == pid && l.user == u.id) (fun l => l.post == P)
          (fun a hpa => by
            simp only [Bool.and_eq_true, beq_iff_eq] at hpa
            simp [hpa.1, hPpid]) t.likes hy
        have hcount := hinv post_obj hpostmem (hpostid.trans hPpid)
        show post_obj.likes_count - 1 =
          (((t.likes.eraseP (fun l => l.post == pid && l.user == u.id)).filter
             (fun l => l.post == P)).length : Int)
        rw [hcount]
        omega
      · rw [if_neg hqid] at hqe
        rw [← hqe] at hpP ⊢
        have hPne : pid ≠ P := fun hcontra =>
          hqid (by simp [hpP, hpostid, hcontra])
        show q.likes_count =
          (((t.likes.eraseP (fun l => l.post == pid && l.user == u.id)).filter
             (fun l => l.post == P)).length : Int)
        rw [filter_eraseP_of_disjoint _ _ (fun a hpa => by
          simp only [Bool.and_eq_true, beq_iff_eq] at hpa
          simp [hpa.1, hPne])]
        exact hinv q hq hpP
    | none =>
      dsimp only
      set newlk : PostLike :=
        { id := nid, post := post_obj.id, user := u.id, is_active := true } with hnewlk
      intro p hp hpP
      simp only [savePost, List.mem_map] at hp
      obtain ⟨q, hq, hqe⟩ := hp
      by_cases hqid : (q.id == post_obj.id) = true
      · rw [if_pos hqid] at hqe
        rw [← hqe] at hpP ⊢
        have hPpid : pid = P := hpostid.symm.trans hpP
        have hcount := hinv post_obj hpostmem (hpostid.trans hPpid)
        show post_obj.likes_count + 1 =
          (((t.likes ++ [newlk]).filter (fun l => l.post == P)).length : Int)
        have hone : (List.filter (fun l => l.post == P) [newlk]).length = 1 := by
          simp [hnewlk, hpostid, hPpid]
        rw [List.filter_append, List.length_append, hone, hcount]
        omega
      · rw [if_neg hqid] at hqe
        rw [← hqe] at hpP ⊢
        have hPne : pid ≠ P := fun hcontra =>
          hqid (by simp [hpP, hpostid, hcontra])
        show q.likes_count =
          (((t.likes ++ [newlk]).filter (fun l => l.post == P)).length : Int)
        have hfil : (List.filter (fun l => l.post == P) [newlk]) = [] := by
          simp [hnewlk, hpostid, hPne]
        rw [List.filter_append, hfil, List.append_nil]
        exact hinv q hq hpP

/-- Counter consistency of `P` is preserved by any serial toggle sequence. -/
theorem likesInv_applyToggles (s : State) (P : Nat)
    (ops : List (User × Nat × Nat)) (hinv : LikesInv s P) :
    LikesInv (applyToggles s ops) P := by
  induction ops generalizing s with
  | nil => exact hinv
  | cons op rest ih =>
    exact ih _ (likesInv_step s P op.1 op.2.1 op.2.2 hinv)

/-- A toggle on an active post either deletes the existing (post, caller)
like and decrements the counter with label "unliked", or creates the
like and increments with label "liked". -/
theorem like_toggle_cases (t : State) (u : User) (pid nid : Nat) (p0 : Post)
    (hfind : (list_posts t).find? (fun p => p.id == pid) = some p0) :
    ((∃ l ∈ t.likes, l.post = pid ∧ l.user = u.id) →
       like_or_unlike_post t u pid nid =
         (.ok ({ p0 with likes_count := p0.likes_count - 1 }, "unliked"),
          { t with
              likes := (t.likes.eraseP (fun l => l.post == pid && l.user == u.id)),
              posts := savePost t.posts { p0 with likes_count := p0.likes_count - 1 } })) ∧
    ((∀ l ∈ t.likes, ¬(l.post = pid ∧ l.user = u.id)) →
       like_or_unlike_post t u pid nid =
         (.ok ({ p0 with likes_count := p0.likes_count + 1 }, "liked"),
          { t with
              likes := t.likes ++
                [{ id := nid, post := p0.id, user := u.id, is_active := true }],
              posts := savePost t.posts { p0 with likes_count := p0.likes_count + 1 } })) := by
  constructor
  · intro hex
    obtain ⟨y, hy⟩ : ∃ y, t.likes.find? (fun l => l.post == pid && l.user == u.id) = some y := by
      rw [← Option.isSome_iff_exists, List.find?_isSome]
      obtain ⟨l, hl, hl1, hl2⟩ := hex
      exact ⟨l, hl, by simp [hl1, hl2]⟩
    unfold like_or_unlike_post get_post_by_id
    rw [hfind, hy]
  · intro habs
    have hnone : t.likes.find? (fun l => l.post == pid && l.user == u.id) = none := by
      rw [List.find?_eq_none]
      intro l hl hc
      simp only [Bool.and_eq_true, beq_iff_eq] at hc
      exact habs l hl ⟨hc.1, hc.2⟩
    unfold like_or_unlike_post get_post_by_id
    rw [hfind]
    dsimp only
    rw [hnone]

/-- A post with id 10 whose counter already records one like row. -/
def exPostLiked : Post :=
  { id := 10, user := 1, description := none, likes_count := 1, comments_count := 0,
    is_reported := false, report_count := 0, is_active := true }

/-- State satisfying the claim's precondition — `likes_count` (1) equals
the number of `PostLike` rows referencing post 10 (1) — but whose single
like row is inactive. -/
def exStateC4 : State :=
  { users := [exOwner, exOther, exThird], posts := [exPostLiked], comments := [],
    likes := [inactiveLike], reports := [], follows := [], recs := [] }

/-- C4 counterexample: in a state satisfying the claim's precondition
(`likes_count` equals the number of PostLike rows referencing the post)
but containing an inactive like row, one further toggle leaves
`likes_count` (2) different from the count of ACTIVE like rows (1) —
the toggle's lookup and counter ignore `is_active`, so the claimed
active-row equation fails. -/
theorem C4_counterexample :
    LikesInv exStateC4 10 ∧
    (∀ p ∈ (applyToggles exStateC4 [(exThird, 10, 99)]).posts, p.id = 10 →
       p.likes_count ≠
         (((applyToggles exStateC4 [(exThird, 10, 99)]).likes.filter
            (fun l => l.post == 10 && l.is_active)).length : Int)) := by
  decide

/-- C4 amended: starting from any state where every post row with id `P`
has `likes_count` equal to the number of `PostLike` rows referencing `P`
(active or not — the row set the code actually operates on), that
equation still holds after any serial sequence of toggle calls by any
users; and each toggle on an active post either deletes the existing
(post, caller) like and decrements the counter (label "unliked") or
creates the like and increments it (label "liked").  When every like row
is active the maintained count coincides with the active-row count of
the original claim. -/
theorem C4_likes_count_toggle_invariant (s : State) (P : Nat)
    (ops : List (User × Nat × Nat)) (hinv : LikesInv s P) :
    LikesInv (applyToggles s ops) P ∧
    (∀ (t : State) (u : User) (pid nid : Nat) (p0 : Post),
       (list_posts t).find? (fun p => p.id == pid) = some p0 →
       ((∃ l ∈ t.likes, l.post = pid ∧ l.user = u.id) →
          like_or_unlike_post t u pid nid =
            (.ok ({ p0 with likes_count := p0.likes_count - 1 }, "unliked"),
             { t with
                 likes := (t.likes.eraseP (fun l => l.post == pid && l.user == u.id)),
                 posts := savePost t.posts { p0 with likes_count := p0.likes_count - 1 } })) ∧
       ((∀ l ∈ t.likes, ¬(l.post = pid ∧ l.user = u.id)) →
          like_or_unlike_post t u pid nid =
            (.ok ({ p0 with likes_count := p0.likes_count + 1 }, "liked"),
             { t with
                 likes := t.likes ++
                   [{ id := nid, post := p0.id, user := u.id, is_active := true }],
                 posts := savePost t.posts { p0 with likes_count := p0.likes_count + 1 } }))) :=
  ⟨likesInv_applyToggles s P ops hinv,
   fun t u pid nid p0 hfind => like_toggle_cases t u pid nid p0 hfind⟩

/-- Witness for C4 amended: the invariant holds after a concrete
like / unlike / like sequence on the base state. -/
theorem C4_witness :
    LikesInv (applyToggles exStateBase
      [(exOther, 10, 60), (exOther, 10, 61), (exThird, 10, 62)]) 10 :=
  (C4_likes_count_toggle_invariant exStateBase 10
    [(exOther, 10, 60), (exOther, 10, 61), (exThird, 10, 62)] (by decide)).1

/-! ## C3 -/

/-- A list of length at most one containing `a` is exactly `[a]`. -/
theorem eq_singleton_of_mem_of_length_le_one {α : Type} {l : List α} {a : α}
    (ha : a ∈ l) (hl : l.length ≤ 1) : l = [a] := by
  match l with
  | [] => exact absurd ha (List.not_mem_nil a)
  | [x] => rw [List.mem_singleton.mp ha]
  | x :: y :: tl => simp at hl

/-- `lastRecFor` finds nothing exactly when no row has the user id. -/
theorem lastRecFor_none_iff {recs : List PostRecommendation} {uid : Nat} :
    lastRecFor recs uid = none ↔ ∀ r ∈ recs, r.user ≠ uid := by
  unfold lastRecFor
  rw [List.head?_eq_none_iff, List.reverse_eq_nil_iff, List.filter_eq_nil_iff]
  constructor
  · intro h r hr
    simpa using h r hr
  · intro h r hr
    simpa using h r hr

/-- A row produced by `lastRecFor` is a row of the table with the user id. -/
theorem lastRecFor_mem {recs : List PostRecommendation} {uid : Nat}
    {r0 : PostRecommendation} (h : lastRecFor recs uid = some r0) :
    r0 ∈ recs ∧ r0.user = uid := by
  unfold lastRecFor at h
  rcases hrev : (recs.filter (fun r => r.user == uid)).reverse with - | ⟨x, xs⟩
  · rw [hrev] at h
    exact absurd h (by simp)
  · rw [hrev] at h
    have hx : x = r0 := by simpa using h
    have hxmem : r0 ∈ (recs.filter (fun r => r.user == uid)).reverse := by
      rw [hrev, ← hx]
      exact List.mem_cons_self x xs
    rw [List.mem_reverse] at hxmem
    have := List.mem_filter.mp hxmem
    exact ⟨this.1, by simpa using this.2⟩

/-- When the table holds at most one row per user, `lastRecFor` returns
exactly the row of that user. -/
theorem lastRecFor_eq_some_of_unique {recs : List PostRecommendation} {uid : Nat}
    {q : PostRecommendation} (hq : q ∈ recs) (hqu : q.user = uid)
    (hone : (recs.filter (fun r => r.user == uid)).length ≤ 1) :
    lastRecFor recs uid = some q := by
  have hqf : q ∈ recs.filter (fun r => r.user == uid) :=
    List.mem_filter.mpr ⟨hq, by simp [hqu]⟩
  have hsing := eq_singleton_of_mem_of_length_le_one hqf hone
  unfold lastRecFor
  rw [hsing]
  rfl

/-- Closed form of the job's update-or-create loop over a user list `L`:
every pre-existing recommendation row whose user is processed receives
the freshly computed list, rows of unprocessed users are untouched, and
processed users with no pre-existing row get a new row appended in
processing order. -/
def jobShape (pre : List PostRecommendation) (L : List User)
    (newRecs : Nat → List Nat) (newRecId : Nat → Nat) : List PostRecommendation :=
  pre.map (fun q =>
    if L.any (fun v => v.id == q.user)
    then { q with recommend_posts := newRecs q.user } else q)
  ++ (L.filter (fun v => !(pre.any (fun r => r.user == v.id)))).map
      (fun v => { id := newRecId v.id, user := v.id,
                  recommend_posts := newRecs v.id, is_active := true })

/-- The fold of `applyRecWrite` computes `jobShape`, provided the
pre-state is well-formed: at most one recommendation row per user,
distinct row ids, and fresh ids for created rows. -/
theorem foldl_applyRecWrite_shape (pre : List PostRecommendation)
    (newRecs : Nat → List Nat) (newRecId : Nat → Nat)
    (hone : ∀ uid, (pre.filter (fun r => r.user == uid)).length ≤ 1)
    (hids : (pre.map (fun r => r.id)).Nodup)
    (hfresh : ∀ uid, newRecId uid ∉ pre.map (fun r => r.id))
    (L : List User) :
    L.foldl (fun recs v => applyRecWrite pre recs v (newRecs v.id) (newRecId v.id)) pre
      = jobShape pre L newRecs newRecId := by
  induction L using List.reverseRecOn with
  | nil => simp [jobShape]
  | append_singleton L v ih =>
    rw [List.foldl_append, ih, List.foldl_cons, List.foldl_nil]
    unfold applyRecWrite
    cases hlast : lastRecFor pre v.id with
    | some r0 =>
      obtain ⟨hr0mem, hr0user⟩ := lastRecFor_mem hlast
      have hpreany : pre.any (fun r => r.user == v.id) = true :=
        List.any_eq_true.mpr ⟨r0, hr0mem, by simp [hr0user]⟩
      dsimp only
      unfold jobShape
      rw [List.map_append, List.map_map, List.map_map]
      congr 1
      · apply List.map_congr_left
        intro q hq
        simp only [Function.comp_apply, List.any_append, List.any_cons, List.any_nil,
          Bool.or_false]
        by_cases hqv : q.user = v.id
        · have hlast2 := lastRecFor_eq_some_of_unique hq hqv (hone v.id)
          rw [hlast] at hlast2
          have hq_eq : q = r0 := (Option.some.inj hlast2).symm
          simp [hq_eq, hr0user, apply_ite]
        · have hqne : q.id ≠ r0.id := by
            intro hcontra
            have := List.inj_on_of_nodup_map hids hq hr0mem hcontra
            rw [this] at hqv
            exact hqv hr0user
          have hvq : (v.id == q.user) = false := by
            simp only [beq_eq_false_iff_ne, ne_eq]
            intro hcontra
            exact hqv hcontra.symm
          simp [apply_ite, hvq, hqne]
          by_cases hc : ∃ x ∈ L, x.id = q.user
          · rw [if_pos hc]
            intro hforall
            obtain ⟨x, hxL, hxid⟩ := hc
            exact absurd hxid (hforall x hxL)
          · rw [if_neg hc]
            intro x hxL hxid
            exact absurd ⟨x, hxL, hxid⟩ hc
      · have hpcv : (!(pre.any (fun r => r.user == v.id))) = false := by
          rw [hpreany]
          rfl
        rw [List.filter_append, List.filter_cons, hpcv]
        simp only [Bool.false_eq_true, if_false, List.filter_nil, List.append_nil]
        apply List.map_congr_left
        intro w hw
        have hwid : newRecId w.id ≠ r0.id := by
          intro hcontra
          exact hfresh w.id (hcontra ▸ List.mem_map_of_mem (fun r => r.id) hr0mem)
        simp [Function.comp_apply, hwid]
    | none =>
      have habs : ∀ r ∈ pre, r.user ≠ v.id := lastRecFor_none_iff.mp hlast
      have hpreany : pre.any (fun r => r.user == v.id) = false := by
        rw [List.any_eq_false]
        intro r hr
        simpa using habs r hr
      dsimp only
      unfold jobShape
      have hmapeq : pre.map (fun q =>
          if (L ++ [v]).any (fun w => w.id == q.user)
          then { q with recommend_posts := newRecs q.user } else q) =
          pre.map (fun q =>
          if L.any (fun w => w.id == q.user)
          then { q with recommend_posts := newRecs q.user } else q) := by
        apply List.map_congr_left
        intro q hq
        have hvq : (v.id == q.user) = false := by
          simp only [beq_eq_false_iff_ne, ne_eq]
          intro hcontra
          exact habs q hq hcontra.symm
        simp only [List.any_append, List.any_cons, List.any_nil, Bool.or_false, hvq]
      have hfiltereq : (L ++ [v]).filter (fun w => !(pre.any (fun r => r.user == w.id))) =
          L.filter (fun w => !(pre.any (fun r => r.user == w.id))) ++ [v] := by
        rw [List.filter_append, List.filter_cons]
        simp [hpreany]
      rw [hmapeq, hfiltereq, List.map_append, ← List.append_assoc]
      rfl

/-- C3: for every user processed by the batch job (under a well-formed
recommendation table: at most one row per user, distinct row ids, fresh
created ids, and with each per-user shuffle a permutation of the active
posts), the job leaves that user with recommendation rows holding
exactly the freshly computed list — so the old set is replaced, not
unioned — and that list has at most `size` (`RECOMMEND_POST_SIZE`)
entries, all of them active posts the user has no active like on. -/
theorem C3_job_recommendation_contents (s : State) (shuffles : Nat → List Post)
    (size : Nat) (newRecId : Nat → Nat) (u : User)
    (hu : u ∈ jobUsers s)
    (hperm : ∀ uid, (shuffles uid).Perm (list_posts s))
    (hone : ∀ uid, (s.recs.filter (fun r => r.user == uid)).length ≤ 1)
    (hids : (s.recs.map (fun r => r.id)).Nodup)
    (hfresh : ∀ uid, newRecId uid ∉ s.recs.map (fun r => r.id)) :
    (∃ r ∈ (create_post_recommendations s shuffles size newRecId).recs, r.user = u.id) ∧
    (∀ r ∈ (create_post_recommendations s shuffles size newRecId).recs, r.user = u.id →
       r.recommend_posts = recommendForUser (shuffles u.id) (likedPostIds s u.id) size) ∧
    (recommendForUser (shuffles u.id) (likedPostIds s u.id) size).length ≤ size ∧
    (∀ pid ∈ recommendForUser (shuffles u.id) (likedPostIds s u.id) size,
       (∃ p ∈ s.posts, p.id = pid ∧ p.is_active = true) ∧
       (∀ l ∈ s.likes, l.is_active = true → l.user = u.id → l.post ≠ pid)) := by
  have hrecs : (create_post_recommendations s shuffles size newRecId).recs =
      jobShape s.recs (jobUsers s)
        (fun uid => recommendForUser (shuffles uid) (likedPostIds s uid) size) newRecId :=
    foldl_applyRecWrite_shape s.recs
      (fun uid => recommendForUser (shuffles uid) (likedPostIds s uid) size) newRecId
      hone hids hfresh (jobUsers s)
  rw [hrecs]
  refine ⟨?_, ?_, ?_, ?_⟩
  · by_cases hpre : s.recs.any (fun r => r.user == u.id) = true
    · obtain ⟨q, hq, hqu⟩ := List.any_eq_true.mp hpre
      have hqu2 : q.user = u.id := by simpa using hqu
      unfold jobShape
      refine ⟨_, List.mem_append_left _ (List.mem_map_of_mem _ hq), ?_⟩
      by_cases hc : ((jobUsers s).any (fun v => v.id == q.user)) = true
      · rw [if_pos hc]
        exact hqu2
      · rw [if_neg hc]
        exact hqu2
    · unfold jobShape
      have hmemf : u ∈ (jobUsers s).filter
          (fun v => !(s.recs.any (fun r => r.user == v.id))) := by
        refine List.mem_filter.mpr ⟨hu, ?_⟩
        simp only [Bool.not_eq_true] at hpre
        simp [hpre]
      exact ⟨_, List.mem_append_right _ (List.mem_map_of_mem _ hmemf), rfl⟩
  · intro r hr hru
    unfold jobShape at hr
    rcases List.mem_append.mp hr with hr1 | hr2
    · obtain ⟨q, hq, hqe⟩ := List.mem_map.mp hr1
      by_cases hc : ((jobUsers s).any (fun v => v.id == q.user)) = true
      · rw [if_pos hc] at hqe
        rw [← hqe] at hru
        have hqu : q.user = u.id := hru
        rw [← hqe]
        show recommendForUser (shuffles q.user) (likedPostIds s q.user) size = _
        rw [hqu]
      · rw [if_neg hc] at hqe
        exfalso
        apply hc
        rw [← hqe] at hru
        exact List.any_eq_true.mpr ⟨u, hu, by simp [hru]⟩
    · obtain ⟨w, hw, hwe⟩ := List.mem_map.mp hr2
      rw [← hwe] at hru
      have hwu : w.id = u.id := hru
      rw [← hwe]
      show recommendForUser (shuffles w.id) (likedPostIds s w.id) size = _
      rw [hwu]
  · unfold recommendForUser
    rw [List.length_map]
    exact List.length_take_le _ _
  · intro pid hpid
    unfold recommendForUser at hpid
    obtain ⟨p, hp, hpe⟩ := List.mem_map.mp hpid
    have hptake : p ∈ (shuffles u.id).filter
        (fun p => !((likedPostIds s u.id).contains p.id)) := List.take_subset _ _ hp
    have hpfil := List.mem_filter.mp hptake
    have hplist : p ∈ list_posts s := (hperm u.id).mem_iff.mp hpfil.1
    have hpmem := List.mem_filter.mp hplist
    constructor
    · exact ⟨p, hpmem.1, hpe, by simpa using hpmem.2⟩
    · intro l hl hlact hluser hlpost
      have hcond := hpfil.2
      rw [Bool.not_eq_true'] at hcond
      have hmem : p.id ∈ likedPostIds s u.id := by
        unfold likedPostIds list_post_likes
        refine List.mem_map.mpr ⟨l, List.mem_filter.mpr
          ⟨List.mem_filter.mpr ⟨hl, hlact⟩, by simp [hluser]⟩, ?_⟩
        rw [hlpost, hpe]
      have hcontains : (likedPostIds s u.id).contains p.id = true := by
        simpa using hmem
      rw [hcontains] at hcond
      exact Bool.noConfusion hcond

/-- A second active post (id 2, owned by user 1). -/
def exPostB : Post :=
  { id := 2, user := 1, description := none, likes_count := 1, comments_count := 0,
    is_reported := false, report_count := 0, is_active := true }

/-- An active like by user 1 on post 10. -/
def exLikeOwnerOn10 : PostLike := { id := 12, post := 10, user := 1, is_active := true }

/-- Job witness state: one ordinary user, two active posts, the user has
liked post 10, no recommendation rows yet. -/
def exStateC3 : State :=
  { users := [exOwner], posts := [exPost, exPostB], comments := [],
    likes := [exLikeOwnerOn10], reports := [], follows := [], recs := [] }

/-- Witness for C3 at the concrete job state (identity shuffle, size 5,
fresh id 70): the user ends up with recommendation rows holding exactly
the computed list. -/
theorem C3_witness :
    (∃ r ∈ (create_post_recommendations exStateC3
        (fun _ => list_posts exStateC3) 5 (fun _ => 70)).recs, r.user = exOwner.id) ∧
    (∀ r ∈ (create_post_recommendations exStateC3
        (fun _ => list_posts exStateC3) 5 (fun _ => 70)).recs, r.user = exOwner.id →
       r.recommend_posts = recommendForUser (list_posts exStateC3)
         (likedPostIds exStateC3 exOwner.id) 5) :=
  ⟨(C3_job_recommendation_contents exStateC3 (fun _ => list_posts exStateC3) 5
      (fun _ => 70) exOwner (by decide) (fun _ => List.Perm.refl _)
      (fun _ => by simp [exStateC3]) (by simp [exStateC3])
      (fun _ => by simp [exStateC3])).1,
   (C3_job_recommendation_contents exStateC3 (fun _ => list_posts exStateC3) 5
      (fun _ => 70) exOwner (by decide) (fun _ => List.Perm.refl _)
      (fun _ => by simp [exStateC3]) (by simp [exStateC3])
      (fun _ => by simp [exStateC3])).2.1⟩

end Nexify
